import Mathlib

/-!
Verification of the ceres content-sync service.

The source is a TypeScript service pair (`GitContentService`,
`RainfallContentSyncService`) whose methods orchestrate calls into an external
git client.  Each external call is embedded as an explicit outcome value
(`Except String α`: `.error m` models a rejected promise carrying message `m`),
so every method becomes a pure function from the outcomes of the calls it
makes to the value it returns.  Mutating workflows additionally return the
ordered trace of external operations they attempted, so that claims of the
form "performs no git operation" are statable.
-/

namespace Ceres

/-- Model of the whitespace class removed by the JS `String.prototype.trim`
(restricted to the ASCII whitespace actually relevant to `.git` files). -/
def jsWs (c : Char) : Bool :=
  c = ' ' || c = '\t' || c = '\n' || c = '\r'

/-- Model of JS `String.prototype.trim`: drop leading and trailing whitespace. -/
def jsTrim (s : String) : String :=
  ⟨((s.data.dropWhile jsWs).reverse.dropWhile jsWs).reverse⟩

/-- Model of JS `String.prototype.startsWith`. -/
def jsStartsWith (s p : String) : Bool :=
  decide (p.data <+: s.data)

/-- Model of the JS expression `v || d` on strings: `undefined` (here `none`)
and the empty string are falsy and select the default. -/
def jsOrStr (v : Option String) (d : String) : String :=
  match v with
  | some s => if s = "" then d else s
  | none => d

/-- Model of JS truthiness of a possibly-`undefined` boolean. -/
def jsTruthy (b : Option Bool) : Bool :=
  b.getD false

/-- One entry of the remote list returned by `git.getRemotes` (the `fetch`
ref is reached through optional chaining in the source, hence `Option`). -/
structure Remote where
  name : String
  refsFetch : Option String
deriving DecidableEq

/-- The fields of a `git.status()` result that `getRepositoryInfo` reads. -/
structure StatusInfo where
  modified : List String
  created : List String
  deleted : List String
  not_added : List String
deriving DecidableEq

/-- The fields of `log.latest` that `getRepositoryInfo` reads; `date` is the
raw date string (`none` models an absent/`undefined` field). -/
structure CommitInfo where
  hash : String
  message : String
  author_name : String
  date : Option String
deriving DecidableEq

/-- `GitRepositoryInfo.lastCommit`; `date = none` models the
`new Date()` (current time) fallback taken when no parsable date exists. -/
structure LastCommit where
  hash : String
  message : String
  author : String
  date : Option String
deriving DecidableEq

/-- `GitRepositoryInfo.status`. -/
structure FileStatus where
  modified : List String
  added : List String
  deleted : List String
  untracked : List String
deriving DecidableEq

/-- The `GitRepositoryInfo` interface of the source. -/
structure GitRepositoryInfo where
  branch : String
  remote : String
  lastCommit : LastCommit
  status : FileStatus
deriving DecidableEq

/-- Outcomes of the four parallel queries issued by `getRepositoryInfo`. -/
structure InfoEnv where
  branchRes : Except String String
  remotesRes : Except String (List Remote)
  logLatest : Except String (Option CommitInfo)
  statusRes : Except String StatusInfo

/-- `GitContentService.getRepositoryInfo`: runs the four queries, throws a
wrapped error if any fails (`Promise.all` rejects with the failing query's
message), otherwise assembles the snapshot.  The `origin` fetch ref is
selected with `remotes.find(r => r.name === 'origin')?.refs?.fetch || 'unknown'`. -/
def getRepositoryInfo (env : InfoEnv) : Except String GitRepositoryInfo :=
  match env.branchRes, env.remotesRes, env.logLatest, env.statusRes with
  | .ok branch, .ok remotes, .ok latest, .ok st =>
    .ok
      { branch := branch
        remote := jsOrStr ((remotes.find? (fun r => r.name == "origin")).bind
          (fun r => r.refsFetch)) "unknown"
        lastCommit :=
          { hash := jsOrStr (latest.map (fun c => c.hash)) ""
            message := jsOrStr (latest.map (fun c => c.message)) ""
            author := jsOrStr (latest.map (fun c => c.author_name)) ""
            date :=
              match latest.bind (fun c => c.date) with
              | some d => if d = "" then none else some d
              | none => none }
        status := ⟨st.modified, st.created, st.deleted, st.not_added⟩ }
  | .error m, _, _, _ => .error ("Failed to get repository info: " ++ m)
  | _, .error m, _, _ => .error ("Failed to get repository info: " ++ m)
  | _, _, .error m, _ => .error ("Failed to get repository info: " ++ m)
  | _, _, _, .error m => .error ("Failed to get repository info: " ++ m)

/-- Result shape of `GitContentService.verifyRepository`. -/
structure VerifyResult where
  isValid : Bool
  issues : List String
deriving DecidableEq

/-- Outcomes of the three sub-checks run by `verifyRepository`. -/
structure VerifyEnv where
  statusRes : Except String Unit
  remotesRes : Except String (List Remote)
  fetchRes : Except String Unit

/-- `GitContentService.verifyRepository`: status query (failure caught by the
outer catch), remote-list query (zero remotes appends an issue), fetch
(failure caught by the inner catch and recorded as an issue);
`isValid` is `issues.length === 0`. -/
def verifyRepository (env : VerifyEnv) : VerifyResult :=
  match env.statusRes with
  | .error m => ⟨false, ["Repository verification failed: " ++ m]⟩
  | .ok _ =>
    match env.remotesRes with
    | .error m => ⟨false, ["Repository verification failed: " ++ m]⟩
    | .ok remotes =>
      let issues : List String :=
        if remotes.length = 0 then ["No remote repositories configured"] else []
      let issues : List String :=
        match env.fetchRes with
        | .error _ => issues ++ ["Cannot access remote repository"]
        | .ok _ => issues
      ⟨issues.isEmpty, issues⟩

/-- Constructor input `ContentSyncConfig`.  JS objects distinguish an absent
key from a key present with value `undefined`, and object spread copies the
latter; the outer `Option` is key presence, the inner one the value
(`some none` = key present, value `undefined`). -/
structure ContentSyncConfig where
  ceresRepositoryUrl : String
  localContentPath : String
  branch : Option (Option String)
  autoCommit : Option (Option Bool)
  includePaths : Option (Option (List String))
  excludePaths : Option (Option (List String))
  verbose : Option (Option Bool)

/-- The stored `this.config` after the constructor's spread merge.  The TS
type is `Required<ContentSyncConfig>`, but a spread-copied `undefined`
survives at runtime, so every optional field stays an `Option`. -/
structure StoredConfig where
  ceresRepositoryUrl : String
  localContentPath : String
  branch : Option String
  autoCommit : Option Bool
  includePaths : Option (List String)
  excludePaths : Option (List String)
  verbose : Option Bool
deriving DecidableEq

/-- One key of the spread `{ ...defaults, ...config }`: a key present in
`config` (even with value `undefined`) overrides the default. -/
def spreadKey {α : Type} (provided : Option (Option α)) (dflt : α) : Option α :=
  match provided with
  | none => some dflt
  | some v => v

/-- The `RainfallContentSyncService` constructor's default merge. -/
def mkConfig (c : ContentSyncConfig) : StoredConfig :=
  { ceresRepositoryUrl := c.ceresRepositoryUrl
    localContentPath := c.localContentPath
    branch := spreadKey c.branch "main"
    autoCommit := spreadKey c.autoCommit true
    includePaths := spreadKey c.includePaths []
    excludePaths := spreadKey c.excludePaths [".git", "node_modules", ".DS_Store"]
    verbose := spreadKey c.verbose false }

/-- The `SyncResult` interface (the `timestamp: Date` taken at entry is
modelled as a number). -/
structure SyncResult where
  success : Bool
  changes : List String
  errors : List String
  timestamp : Nat
deriving DecidableEq

/-- Evaluation of the guard
`this.config.includePaths.length > 0 || this.config.excludePaths.length > 0`
in `sync()`: reading `.length` of a spread-copied `undefined` throws a
`TypeError` (modelled as `.error`), and `||` short-circuits. -/
def syncFilterCheck (cfg : StoredConfig) : Except String Bool :=
  match cfg.includePaths with
  | none => .error "Cannot read properties of undefined reading length"
  | some inc =>
    if inc.length > 0 then .ok true
    else
      match cfg.excludePaths with
      | none => .error "Cannot read properties of undefined reading length"
      | some exc => .ok (exc.length > 0)

/-- `RainfallContentSyncService.sync`: pull from origin on the configured
branch; on success record the pulled file list as `changes` (the empty list
when zero files changed), evaluate the path-filter guard
(`applyPathFilters` itself is a logging no-op), and set `success`; any
thrown error is caught and pushed onto `errors`. -/
def sync (cfg : StoredConfig) (pullFiles : Except String (List String))
    (ts : Nat) : SyncResult :=
  let base : SyncResult := ⟨false, [], [], ts⟩
  match pullFiles with
  | .error m => { base with errors := [m] }
  | .ok files =>
    let r := if files.length > 0 then { base with changes := files } else base
    match syncFilterCheck cfg with
    | .error m => { r with errors := r.errors ++ [m] }
    | .ok _ => { r with success := true }

/-- One git operation attempted by `push()` (in attempt order). -/
inductive PushOp
  | statusQuery
  | stageAll
  | commit (message : String)
  | pushTo (remote : String) (branch : Option String)
deriving DecidableEq

/-- One entry of `status.files`. -/
structure StatusFile where
  path : String
deriving DecidableEq

/-- Outcomes of the git calls `push()` may issue. -/
structure PushEnv where
  statusRes : Except String (List StatusFile)
  addRes : Except String Unit
  commitRes : Except String Unit
  pushRes : Except String Unit

/-- `RainfallContentSyncService.push`: throws (caught into `errors`) when
`autoCommit` is falsy; queries status; short-circuits to success on zero
files; otherwise stages all, commits with `commitMessage || default`,
pushes to origin on the configured branch, and only then records
`changes = status.files.map(f => f.path)`.  Also returns the trace of git
operations attempted. -/
def push (cfg : StoredConfig) (env : PushEnv) (commitMessage : Option String)
    (nowIso : String) (ts : Nat) : SyncResult × List PushOp :=
  let base : SyncResult := ⟨false, [], [], ts⟩
  if jsTruthy cfg.autoCommit then
    match env.statusRes with
    | .error m => ({ base with errors := [m] }, [.statusQuery])
    | .ok files =>
      if files.length = 0 then
        ({ base with success := true }, [.statusQuery])
      else
        match env.addRes with
        | .error m => ({ base with errors := [m] }, [.statusQuery, .stageAll])
        | .ok _ =>
          let message := jsOrStr commitMessage ("Content sync update - " ++ nowIso)
          match env.commitRes with
          | .error m =>
            ({ base with errors := [m] }, [.statusQuery, .stageAll, .commit message])
          | .ok _ =>
            match env.pushRes with
            | .error m =>
              ({ base with errors := [m] },
               [.statusQuery, .stageAll, .commit message, .pushTo "origin" cfg.branch])
            | .ok _ =>
              ({ base with success := true, changes := files.map (fun f => f.path) },
               [.statusQuery, .stageAll, .commit message, .pushTo "origin" cfg.branch])
  else
    ({ base with errors := ["Push operation requires autoCommit to be enabled"] }, [])

/-- `RainfallContentSyncService.isGitSubmodule`: read `localContentPath/.git`;
a read failure yields `false`, otherwise test whether the trimmed content
starts with `gitdir:`. -/
def isGitSubmodule (dotGitRead : Except String String) : Bool :=
  match dotGitRead with
  | .ok s => jsStartsWith (jsTrim s) "gitdir:"
  | .error _ => false

/-- One filesystem/git action attempted during initialization. -/
inductive InitAction
  | ensureDir
  | readGitFile
  | subInit
  | subUpdate
  | readDir
  | statusQuery
  | clone (url : String)
deriving DecidableEq

/-- Whether an initialization action can overwrite or delete existing
directory contents.  Only the clone writes into the directory; every other
action is a read, a no-op directory creation, or a submodule registration
against the parent repository. -/
def InitAction.destructive : InitAction → Bool
  | .clone _ => true
  | _ => false

/-- Outcomes of the filesystem/git calls the initialization may issue. -/
structure InitEnv where
  ensureDirRes : Except String Unit
  dotGitRead : Except String String
  readdirRes : Except String (List String)
  statusRes : Except String Unit
  cloneRes : Except String Unit
  subInitRes : Except String Unit
  subUpdateRes : Except String Unit

/-- The wrapper applied by the catch block of the initialization. -/
def wrapInit (m : String) : String :=
  "Failed to initialize content sync service: " ++ m

/-- `RainfallContentSyncService.initialize` (with
`initializeSubmodule`/`initializeStandaloneClone` inlined): ensure the
directory exists, detect a submodule via `isGitSubmodule`; submodules get
submodule-init and submodule-update against the parent; otherwise an empty
directory is cloned into, and a non-empty one must answer a status query or
the fixed not-a-git-repository error is thrown.  Every failure is wrapped by
the outer catch.  Also returns the trace of actions attempted. -/
def initializeSvc (env : InitEnv) (url : String) :
    Except String Unit × List InitAction :=
  match env.ensureDirRes with
  | .error m => (.error (wrapInit m), [.ensureDir])
  | .ok _ =>
    if isGitSubmodule env.dotGitRead then
      match env.subInitRes with
      | .error m => (.error (wrapInit m), [.ensureDir, .readGitFile, .subInit])
      | .ok _ =>
        match env.subUpdateRes with
        | .error m =>
          (.error (wrapInit m), [.ensureDir, .readGitFile, .subInit, .subUpdate])
        | .ok _ => (.ok (), [.ensureDir, .readGitFile, .subInit, .subUpdate])
    else
      match env.readdirRes with
      | .error m => (.error (wrapInit m), [.ensureDir, .readGitFile, .readDir])
      | .ok entries =>
        if entries.length = 0 then
          match env.cloneRes with
          | .error m =>
            (.error (wrapInit m), [.ensureDir, .readGitFile, .readDir, .clone url])
          | .ok _ => (.ok (), [.ensureDir, .readGitFile, .readDir, .clone url])
        else
          match env.statusRes with
          | .error _ =>
            (.error (wrapInit "Local content directory exists but is not a git repository"),
             [.ensureDir, .readGitFile, .readDir, .statusQuery])
          | .ok _ => (.ok (), [.ensureDir, .readGitFile, .readDir, .statusQuery])

/-- C1: every `SyncResult` returned by `sync()` or `push()` has `success = true`
exactly when its `errors` list is empty. -/
theorem sync_push_result_invariant
    (cfg : StoredConfig) (pullFiles : Except String (List String)) (ts : Nat)
    (env : PushEnv) (msg : Option String) (nowIso : String) :
    ((sync cfg pullFiles ts).success = true ↔ (sync cfg pullFiles ts).errors = []) ∧
    (((push cfg env msg nowIso ts).1.success = true) ↔
      (push cfg env msg nowIso ts).1.errors = []) := by
  constructor
  · cases pullFiles with
    | error m => simp [sync]
    | ok files =>
      cases h : syncFilterCheck cfg with
      | error m => by_cases hl : files.length > 0 <;> simp [sync, h, hl]
      | ok b => by_cases hl : files.length > 0 <;> simp [sync, h, hl]
  · cases ht : jsTruthy cfg.autoCommit with
    | false => simp [push, ht]
    | true =>
      cases hs : env.statusRes with
      | error m => simp [push, ht, hs]
      | ok files =>
        by_cases hf : files.length = 0
        · simp [push, ht, hs, hf]
        · cases ha : env.addRes with
          | error m => simp [push, ht, hs, hf, ha]
          | ok u =>
            cases hc : env.commitRes with
            | error m => simp [push, ht, hs, hf, ha, hc]
            | ok u2 =>
              cases hp : env.pushRes with
              | error m => simp [push, ht, hs, hf, ha, hc, hp]
              | ok u3 => simp [push, ht, hs, hf, ha, hc, hp]

/-- C2: `sync()` is total over every pull outcome (never raises): a failed
pull yields `success = false` with the failure message as the only error and
the `changes` collected so far (none precede the pull); a successful pull
yields `success = true`, `changes` equal to the pulled file list, and no
error even when zero files changed. -/
theorem sync_reports_pull_outcome
    (cfg : StoredConfig) (pullFiles : Except String (List String)) (ts : Nat)
    (hinc : cfg.includePaths.isSome = true) (hexc : cfg.excludePaths.isSome = true) :
    (∀ m, pullFiles = .error m → sync cfg pullFiles ts = ⟨false, [], [m], ts⟩) ∧
    (∀ files, pullFiles = .ok files → sync cfg pullFiles ts = ⟨true, files, [], ts⟩) := by
  have hfc : ∃ b, syncFilterCheck cfg = .ok b := by
    cases hi : cfg.includePaths with
    | none => simp [hi] at hinc
    | some inc =>
      by_cases hl : inc.length > 0
      · exact ⟨true, by simp [syncFilterCheck, hi, hl]⟩
      · cases he : cfg.excludePaths with
        | none => simp [he] at hexc
        | some exc => exact ⟨exc.length > 0, by simp [syncFilterCheck, hi, hl, he]⟩
  obtain ⟨b, hb⟩ := hfc
  constructor
  · intro m hm
    subst hm
    simp [sync]
  · intro files hf
    subst hf
    by_cases hl : files.length > 0
    · simp [sync, hb, hl]
    · have hnil : files = [] := by
        rw [← List.length_eq_zero]
        omega
      subst hnil
      simp [sync, hb]

/-- Witness for C2 at a defaulted configuration and a successful pull. -/
theorem sync_reports_pull_outcome_witness :
    sync (mkConfig ⟨"u", "p", none, none, none, none, none⟩) (.ok ["a.md"]) 0 =
      ⟨true, ["a.md"], [], 0⟩ :=
  (sync_reports_pull_outcome (mkConfig ⟨"u", "p", none, none, none, none, none⟩)
    (.ok ["a.md"]) 0 rfl rfl).2 ["a.md"] rfl

/-- C3: with `autoCommit = false` in the stored configuration, `push()` fails
immediately with the auto-commit-disabled error and attempts no git
operation (empty operation trace), whatever the working-copy state. -/
theorem push_autoCommit_disabled
    (cfg : StoredConfig) (env : PushEnv) (msg : Option String) (nowIso : String)
    (ts : Nat) (h : cfg.autoCommit = some false) :
    push cfg env msg nowIso ts =
      (⟨false, [], ["Push operation requires autoCommit to be enabled"], ts⟩, []) := by
  simp [push, jsTruthy, h]

/-- Witness for C3 at a concrete configuration and working-copy state. -/
theorem push_autoCommit_disabled_witness :
    push (mkConfig ⟨"u", "p", none, some (some false), none, none, none⟩)
        ⟨.ok [⟨"a.json"⟩], .ok (), .ok (), .ok ()⟩ none "2025-01-01T00:00:00Z" 0 =
      (⟨false, [], ["Push operation requires autoCommit to be enabled"], 0⟩, []) :=
  push_autoCommit_disabled _ _ _ _ _ rfl

/-- C4: with `autoCommit = true`, a status query reporting zero files makes
`push()` succeed with empty `changes`, no error, and no stage/commit/push
attempted; with a non-empty status and successful stage/commit/push, the
commit message is the given one (default
`"Content sync update - " ++ iso` when absent), the push targets origin on
the configured branch, and `changes` is the pre-commit status file list in
reported order. -/
theorem push_workflow
    (cfg : StoredConfig) (env : PushEnv) (msg : Option String) (nowIso : String)
    (ts : Nat) (hauto : cfg.autoCommit = some true) :
    (env.statusRes = .ok [] →
      push cfg env msg nowIso ts = (⟨true, [], [], ts⟩, [.statusQuery])) ∧
    (∀ files, env.statusRes = .ok files → files ≠ [] → msg ≠ some "" →
      env.addRes = .ok () → env.commitRes = .ok () → env.pushRes = .ok () →
      push cfg env msg nowIso ts =
        (⟨true, files.map (fun f => f.path), [], ts⟩,
         [.statusQuery, .stageAll,
          .commit (msg.getD ("Content sync update - " ++ nowIso)),
          .pushTo "origin" cfg.branch])) := by
  have ht : jsTruthy cfg.autoCommit = true := by simp [jsTruthy, hauto]
  constructor
  · intro hs
    simp [push, ht, hs]
  · intro files hs hne hmsg ha hc hp
    have hl : ¬ files.length = 0 := by
      simpa [List.length_eq_zero] using hne
    have hmm : jsOrStr msg ("Content sync update - " ++ nowIso) =
        msg.getD ("Content sync update - " ++ nowIso) := by
      cases msg with
      | none => rfl
      | some s =>
        have hs' : s ≠ "" := fun h => hmsg (by rw [h])
        simp [jsOrStr, hs']
    simp [push, ht, hs, hl, ha, hc, hp, hmm]

/-- Witness for C4 on a working copy with two changed files. -/
theorem push_workflow_witness :
    push (mkConfig ⟨"u", "p", none, none, none, none, none⟩)
        ⟨.ok [⟨"a.json"⟩, ⟨"b.json"⟩], .ok (), .ok (), .ok ()⟩
        (some "fix tokens") "2025-01-01T00:00:00Z" 0 =
      (⟨true, ["a.json", "b.json"], [], 0⟩,
       [.statusQuery, .stageAll, .commit "fix tokens",
        .pushTo "origin" (some "main")]) :=
  (push_workflow _ _ _ _ _ rfl).2 [⟨"a.json"⟩, ⟨"b.json"⟩] rfl (by simp)
    (by simp) rfl rfl rfl

/-- C5: on a non-empty directory that is not a submodule and whose status
query fails, initialization fails with the not-a-git-repository error
wrapped by the initialization-failure prefix, and no attempted action can
overwrite or delete directory contents (in particular no clone). -/
theorem init_nonempty_non_repo
    (env : InitEnv) (url : String)
    (hdir : env.ensureDirRes = .ok ())
    (hsub : isGitSubmodule env.dotGitRead = false)
    (entries : List String) (hread : env.readdirRes = .ok entries)
    (hne : entries ≠ [])
    (m : String) (hstatus : env.statusRes = .error m) :
    initializeSvc env url =
      (.error "Failed to initialize content sync service: Local content directory exists but is not a git repository",
       [.ensureDir, .readGitFile, .readDir, .statusQuery]) ∧
    (∀ a ∈ (initializeSvc env url).2, a.destructive = false) := by
  have hl : ¬ entries.length = 0 := by
    simpa [List.length_eq_zero] using hne
  have h1 : initializeSvc env url =
      (.error "Failed to initialize content sync service: Local content directory exists but is not a git repository",
       [.ensureDir, .readGitFile, .readDir, .statusQuery]) := by
    simp [initializeSvc, hdir, hsub, hread, hl, hstatus, wrapInit]
  refine ⟨h1, ?_⟩
  rw [h1]
  intro a ha
  simp only [List.mem_cons, List.not_mem_nil, or_false] at ha
  rcases ha with h | h | h | h <;> subst h <;> rfl

/-- Witness for C5 on a directory holding one file that is not a repository. -/
theorem init_nonempty_non_repo_witness :
    initializeSvc
        ⟨.ok (), .error "ENOENT", .ok ["README.md"], .error "fatal: not a git repository",
          .ok (), .ok (), .ok ()⟩ "u" =
      (.error "Failed to initialize content sync service: Local content directory exists but is not a git repository",
       [.ensureDir, .readGitFile, .readDir, .statusQuery]) :=
  (init_nonempty_non_repo
    ⟨.ok (), .error "ENOENT", .ok ["README.md"], .error "fatal: not a git repository",
      .ok (), .ok (), .ok ()⟩ "u" rfl rfl ["README.md"] rfl (by simp)
    "fatal: not a git repository" rfl).1

/-- C8: whenever the remote-list query succeeds with no remote named origin
(in particular zero remotes) and a snapshot is returned, its remote field is
the sentinel string unknown. -/
theorem snapshot_remote_fallback
    (env : InfoEnv) (rs : List Remote) (info : GitRepositoryInfo)
    (hrem : env.remotesRes = .ok rs)
    (hno : rs.find? (fun r => r.name == "origin") = none)
    (hok : getRepositoryInfo env = .ok info) :
    info.remote = "unknown" := by
  obtain ⟨br, rr, ll, sr⟩ := env
  have hrr : rr = .ok rs := hrem
  subst hrr
  cases br with
  | error m => simp [getRepositoryInfo] at hok
  | ok branch =>
    cases ll with
    | error m => simp [getRepositoryInfo] at hok
    | ok latest =>
      cases sr with
      | error m => simp [getRepositoryInfo] at hok
      | ok st =>
        simp only [getRepositoryInfo, Except.ok.injEq] at hok
        subst hok
        simp [hno, jsOrStr]

/-- Witness for C8 on a working copy with zero configured remotes. -/
theorem snapshot_remote_fallback_witness :
    (⟨"main", "unknown", ⟨"", "", "", none⟩, ⟨[], [], [], []⟩⟩ :
        GitRepositoryInfo).remote = "unknown" :=
  snapshot_remote_fallback
    ⟨.ok "main", .ok [], .ok none, .ok ⟨[], [], [], []⟩⟩ [] _ rfl rfl rfl

/-- C7: `verifyRepository` never raises; `isValid` equals emptiness of the
issues list, and with a working status query, zero remotes and a failing
fetch the result is exactly the two documented issue strings. -/
theorem verifyRepository_advisory (env : VerifyEnv) :
    ((verifyRepository env).isValid = true ↔ (verifyRepository env).issues = []) ∧
    (∀ m, env.statusRes = .ok () → env.remotesRes = .ok [] → env.fetchRes = .error m →
      verifyRepository env =
        ⟨false, ["No remote repositories configured", "Cannot access remote repository"]⟩) := by
  constructor
  · cases hs : env.statusRes with
    | error m => simp [verifyRepository, hs]
    | ok u =>
      cases hr : env.remotesRes with
      | error m => simp [verifyRepository, hs, hr]
      | ok rs =>
        cases hf : env.fetchRes with
        | error m =>
          by_cases hl : rs.length = 0 <;> simp [verifyRepository, hs, hr, hf, hl]
        | ok u2 =>
          by_cases hl : rs.length = 0 <;> simp [verifyRepository, hs, hr, hf, hl]
  · intro m h1 h2 h3
    simp [verifyRepository, h1, h2, h3]

/-- Witness for C7: scenario with no remotes and no network access. -/
theorem verifyRepository_advisory_witness :
    verifyRepository ⟨.ok (), .ok [], .error "offline"⟩ =
      ⟨false, ["No remote repositories configured", "Cannot access remote repository"]⟩ :=
  (verifyRepository_advisory _).2 "offline" rfl rfl rfl

/-- Helper: trimming cannot disturb a leading `gitdir:` marker, because both
its first and its last character are non-whitespace. -/
theorem jsTrim_keeps_gitdir (s : String) (h : jsStartsWith s "gitdir:" = true) :
    jsStartsWith (jsTrim s) "gitdir:" = true := by
  unfold jsStartsWith at h ⊢
  rw [decide_eq_true_eq] at h ⊢
  obtain ⟨r, hr⟩ := h
  show "gitdir:".data <+: ((s.data.dropWhile jsWs).reverse.dropWhile jsWs).reverse
  have hgd : "gitdir:".data = 'g' :: "itdir:".data := rfl
  have hg : jsWs 'g' = false := by decide
  have h1 : s.data.dropWhile jsWs = s.data := by
    rw [← hr, hgd, List.cons_append, List.dropWhile_cons, hg]
    simp
  rw [h1, ← hr, List.reverse_append, List.dropWhile_append]
  have hpr : "gitdir:".data.reverse.dropWhile jsWs = "gitdir:".data.reverse := by
    decide
  split_ifs with hemp
  · rw [hpr, List.reverse_reverse]
  · rw [List.reverse_append, List.reverse_reverse]
    exact List.prefix_append _ _

/-- C6: a readable `.git` file whose content begins with `gitdir:` sends
initialization down the submodule branch (submodule-init attempted, and
submodule-update once that succeeds) and no clone is ever attempted; an
unreadable or absent `.git` is treated as not-a-submodule, and
initialization proceeds to the standalone-clone logic (the directory
listing is attempted) rather than failing on the detection itself. -/
theorem init_submodule_detection
    (env : InitEnv) (url : String) (hdir : env.ensureDirRes = .ok ()) :
    (∀ s, env.dotGitRead = .ok s → jsStartsWith s "gitdir:" = true →
      InitAction.subInit ∈ (initializeSvc env url).2 ∧
      (∀ u, InitAction.clone u ∉ (initializeSvc env url).2)) ∧
    (∀ e, env.dotGitRead = .error e →
      isGitSubmodule env.dotGitRead = false ∧
      InitAction.readDir ∈ (initializeSvc env url).2 ∧
      InitAction.subInit ∉ (initializeSvc env url).2) := by
  constructor
  · intro s hs hstart
    have hsub : isGitSubmodule env.dotGitRead = true := by
      unfold isGitSubmodule
      rw [hs]
      exact jsTrim_keeps_gitdir s hstart
    cases hsi : env.subInitRes with
    | error m => simp [initializeSvc, hdir, hsub, hsi]
    | ok u =>
      cases hsu : env.subUpdateRes with
      | error m => simp [initializeSvc, hdir, hsub, hsi, hsu]
      | ok u2 => simp [initializeSvc, hdir, hsub, hsi, hsu]
  · intro e he
    have hsub : isGitSubmodule env.dotGitRead = false := by
      unfold isGitSubmodule
      rw [he]
    have hkey : InitAction.readDir ∈ (initializeSvc env url).2 ∧
        InitAction.subInit ∉ (initializeSvc env url).2 := by
      cases hrd : env.readdirRes with
      | error m => simp [initializeSvc, hdir, hsub, hrd]
      | ok entries =>
        by_cases hl : entries.length = 0
        · cases hc : env.cloneRes with
          | error m => simp [initializeSvc, hdir, hsub, hrd, hl, hc]
          | ok u => simp [initializeSvc, hdir, hsub, hrd, hl, hc]
        · cases hst : env.statusRes with
          | error m => simp [initializeSvc, hdir, hsub, hrd, hl, hst]
          | ok u => simp [initializeSvc, hdir, hsub, hrd, hl, hst]
    exact ⟨hsub, hkey.1, hkey.2⟩

/-- Witness for C6 on a `.git` file holding a submodule pointer line. -/
theorem init_submodule_detection_witness :
    InitAction.subInit ∈ (initializeSvc
        ⟨.ok (), .ok "gitdir: ../.git/modules/x", .ok [], .error "e",
          .ok (), .ok (), .ok ()⟩ "u").2 ∧
    InitAction.clone "u" ∉ (initializeSvc
        ⟨.ok (), .ok "gitdir: ../.git/modules/x", .ok [], .error "e",
          .ok (), .ok (), .ok ()⟩ "u").2 :=
  ⟨((init_submodule_detection
      ⟨.ok (), .ok "gitdir: ../.git/modules/x", .ok [], .error "e",
        .ok (), .ok (), .ok ()⟩ "u" rfl).1
      "gitdir: ../.git/modules/x" rfl (by decide)).1,
   ((init_submodule_detection
      ⟨.ok (), .ok "gitdir: ../.git/modules/x", .ok [], .error "e",
        .ok (), .ok (), .ok ()⟩ "u" rfl).1
      "gitdir: ../.git/modules/x" rfl (by decide)).2 "u"⟩

/-- C9: from an input carrying only the two required fields, the constructor
stores `branch = "main"`, `autoCommit = true`, `includePaths = []`,
`excludePaths = [".git", "node_modules", ".DS_Store"]`, `verbose = false`,
and preserves the required fields. -/
theorem config_defaults (url lpath : String) :
    mkConfig ⟨url, lpath, none, none, none, none, none⟩ =
      ⟨url, lpath, some "main", some true, some [],
        some [".git", "node_modules", ".DS_Store"], some false⟩ := rfl

/-- C10: a key present with value `undefined` is spread-copied over the
default, so every such optional field is stored as `undefined` rather than
the documented default. -/
theorem config_spread_copies_undefined (url lpath : String) :
    mkConfig ⟨url, lpath, some none, some none, some none, some none, some none⟩ =
      ⟨url, lpath, none, none, none, none, none⟩ := rfl

end Ceres
